import Mathlib

/-!
Verification development for the pseudo_dojo repository.

Part 1 models the ONCVPSP output-report parser (`OncvOuptputParser`).
The parser module itself is not among the given sources (only its test
`ppcodes/tests/test_oncvpsp.py` is), so the parser is modelled from the
specification: header scan, section location, numeric row decoding,
mesh cross-checks, and result assembly, with the error taxonomy
UnsupportedCalculationMode / MissingSection / MalformedRow / MeshMismatch.

Part 2 embeds `DojoTable.from_djson` and `DojoTable.dojo_check_errors`
from `pseudo_dojo/core/pseudos.py`, which is among the given sources.

Numbers printed in the report are decoded exactly, so they are modelled
as rationals; tokenization of a numeric table is abstracted as a list of
rows, each row a list of rationals.
-/

namespace Oncv

/-- Modelled from the spec: the relativistic-mode indicator of the header
(non-relativistic | scalar-relativistic | fully-relativistic). -/
inductive CalcMode
  | nonRelativistic
  | scalarRelativistic
  | fullyRelativistic
deriving DecidableEq, Repr, Inhabited

/-- Modelled from the spec: RunMetadata scanned from the header block:
element symbol, atomic number and exchange-correlation id as printed
(strings), the relativistic mode and the maximum angular momentum. -/
structure Header where
  atsym : String
  z : String
  iexc : String
  mode : CalcMode
  lmax : Nat
deriving DecidableEq, Repr, Inhabited

/-- Modelled from the spec: the named sections the parser locates inside a
report: density table, potential tables per l (with l = -1 for the local
potential), wavefunction tables per (n, l) for both treatments, projector
tables per (index, l), convergence blocks per l, and log-derivative blocks
per l for both treatments. -/
inductive SectionKey
  | density
  | potential (l : Int)
  | aeWf (n l : Nat)
  | psWf (n l : Nat)
  | projector (i l : Nat)
  | convergence (l : Nat)
  | aeLogder (l : Nat)
  | psLogder (l : Nat)
deriving DecidableEq, Repr, Inhabited

/-- Modelled from the spec: the input report after tokenization: the header
metadata plus the sections whose marker lines occur in the text, each with
its numeric rows (a row is the list of numeric fields on one line).
A key absent from `sections` models a marker never found. -/
structure Report where
  header : Header
  sections : List (SectionKey × List (List ℚ))
deriving DecidableEq, Repr, Inhabited

/-- Modelled from the spec: the parser's error taxonomy. -/
inductive ParseError
  | unsupportedCalculationMode
  | missingSection (k : SectionKey)
  | malformedRow (k : SectionKey)
  | meshMismatch
deriving DecidableEq, Repr, Inhabited

/-- Exact value of a printed decimal number: `dec n k` is n / 10^k, so for
instance `dec 100642 7` is the printed 0.0100642 and `dec (-74449470) 7`
the printed -7.4449470.  (The `Rat` scientific-notation literals are
avoided because their coercion is irreducible and would block evaluation
inside proofs.) -/
def dec (n : Int) (k : Nat) : ℚ := mkRat n (10 ^ k)

/-- Look up the rows of the first section in the report carrying the key
(marker scanning finds the first occurrence of a marker). -/
def lookupSection (r : Report) (key : SectionKey) : Option (List (List ℚ)) :=
  go r.sections
where
  go : List (SectionKey × List (List ℚ)) → Option (List (List ℚ))
    | [] => none
    | (k, rows) :: rest => if k = key then some rows else go rest

/-- Angular momenta 0, …, lmax. -/
def angularLs (lmax : Nat) : List Nat :=
  List.range (lmax + 1)

/-- Potential channels: one semilocal potential per l = 0, …, lmax plus the
local potential, filed under l = -1. -/
def potentialLs (lmax : Nat) : List Int :=
  (List.range (lmax + 1)).map (fun l => (l : Int)) ++ [-1]

/-- Wavefunction (n, l) keys announced by markers in the report, in order of
first occurrence, without duplicates. -/
def wfKeys (r : Report) : List (Nat × Nat) :=
  (r.sections.filterMap (fun s =>
    match s.1 with
    | .aeWf n l => some (n, l)
    | .psWf n l => some (n, l)
    | _ => none)).dedup

/-- Projector (index, l) keys announced by markers in the report, in order of
first occurrence, without duplicates. -/
def prjKeys (r : Report) : List (Nat × Nat) :=
  (r.sections.filterMap (fun s =>
    match s.1 with
    | .projector i l => some (i, l)
    | _ => none)).dedup

/-- Modelled from the spec: the sections the parser expects in a report:
the density table, a potential table per channel, convergence and
log-derivative blocks per l up to lmax, and, for every (n, l) wavefunction
key announced in the report, both the all-electron and the pseudo table. -/
def requiredKeys (r : Report) : List SectionKey :=
  SectionKey.density ::
    ((potentialLs r.header.lmax).map SectionKey.potential
      ++ (wfKeys r).map (fun p => SectionKey.aeWf p.1 p.2)
      ++ (wfKeys r).map (fun p => SectionKey.psWf p.1 p.2)
      ++ (angularLs r.header.lmax).map SectionKey.convergence
      ++ (angularLs r.header.lmax).map SectionKey.aeLogder
      ++ (angularLs r.header.lmax).map SectionKey.psLogder)

/-- First expected section whose marker is absent, if any (spec step 2). -/
def firstMissing (r : Report) : Option SectionKey :=
  (requiredKeys r).find? (fun k => (lookupSection r k).isNone)

/-- Decode one two-column row into an (abscissa, value) pair. -/
def row2 : List ℚ → Option (ℚ × ℚ)
  | [a, b] => some (a, b)
  | _ => none

/-- Decode one four-column density row (radius, rhoV, rhoC, rhoM). -/
def row4 : List ℚ → Option (ℚ × ℚ × ℚ × ℚ)
  | [a, b, c, d] => some (a, b, c, d)
  | _ => none

/-- Decode a two-column table; `none` when some row is malformed. -/
def decode2 : List (List ℚ) → Option (List (ℚ × ℚ))
  | [] => some []
  | row :: rest =>
    match row2 row, decode2 rest with
    | some p, some ps => some (p :: ps)
    | _, _ => none

/-- Decode the four-column density table; `none` when some row is malformed. -/
def decode4 : List (List ℚ) → Option (List (ℚ × ℚ × ℚ × ℚ))
  | [] => some []
  | row :: rest =>
    match row4 row, decode4 rest with
    | some q, some qs => some (q :: qs)
    | _, _ => none

/-- Rows of a located section (the parser only reads these for sections
whose presence step 2 has already established). -/
def getRows (r : Report) (k : SectionKey) : List (List ℚ) :=
  (lookupSection r k).getD []

/-- Decode the two-column section under key `k`; a malformed row is a hard
failure naming the offending section (spec step 3). -/
def decodeSec (r : Report) (k : SectionKey) : Except ParseError (List (ℚ × ℚ)) :=
  match decode2 (getRows r k) with
  | some ps => .ok ps
  | none => .error (.malformedRow k)

/-- Decode one two-column section per key in `ks`, stopping at the first
malformed row. -/
def decodeKeyed {α : Type} (r : Report) (mk : α → SectionKey) :
    List α → Except ParseError (List (α × List (ℚ × ℚ)))
  | [] => .ok []
  | a :: as =>
    match decodeSec r (mk a) with
    | .error e => .error e
    | .ok ps =>
      match decodeKeyed r mk as with
      | .error e => .error e
      | .ok rest => .ok ((a, ps) :: rest)

/-- All numeric tables of a report after per-section decoding (spec step 3). -/
structure Decoded where
  density : List (ℚ × ℚ × ℚ × ℚ)
  pots : List (Int × List (ℚ × ℚ))
  aeWfs : List ((Nat × Nat) × List (ℚ × ℚ))
  psWfs : List ((Nat × Nat) × List (ℚ × ℚ))
  prjs : List ((Nat × Nat) × List (ℚ × ℚ))
  convs : List (Nat × List (ℚ × ℚ))
  aeLds : List (Nat × List (ℚ × ℚ))
  psLds : List (Nat × List (ℚ × ℚ))
deriving DecidableEq, Repr, Inhabited

/-- Per-section numeric extraction over the whole report (spec step 3). -/
def decodeAll (r : Report) : Except ParseError Decoded :=
  match decode4 (getRows r .density) with
  | none => .error (.malformedRow .density)
  | some density =>
    match decodeKeyed r SectionKey.potential (potentialLs r.header.lmax) with
    | .error e => .error e
    | .ok pots =>
      match decodeKeyed r (fun p => SectionKey.aeWf p.1 p.2) (wfKeys r) with
      | .error e => .error e
      | .ok aeWfs =>
        match decodeKeyed r (fun p => SectionKey.psWf p.1 p.2) (wfKeys r) with
        | .error e => .error e
        | .ok psWfs =>
          match decodeKeyed r (fun p => SectionKey.projector p.1 p.2) (prjKeys r) with
          | .error e => .error e
          | .ok prjs =>
            match decodeKeyed r SectionKey.convergence (angularLs r.header.lmax) with
            | .error e => .error e
            | .ok convs =>
              match decodeKeyed r SectionKey.aeLogder (angularLs r.header.lmax) with
              | .error e => .error e
              | .ok aeLds =>
                match decodeKeyed r SectionKey.psLogder (angularLs r.header.lmax) with
                | .error e => .error e
                | .ok psLds =>
                  .ok ⟨density, pots, aeWfs, psWfs, prjs, convs, aeLds, psLds⟩

/-- Radial mesh of a series: its list of abscissae. -/
def meshOf (ps : List (ℚ × ℚ)) : List ℚ :=
  ps.map Prod.fst

/-- All meshes in the list coincide. -/
def allEqMesh : List (List ℚ) → Bool
  | [] => true
  | m :: rest => rest.all (fun m2 => decide (m2 = m))

/-- Modelled from the spec: the mesh cross-check of step 4, on the series
claimed to share a mesh: all potential series of one report share one
radial mesh, and each (n, l) wavefunction pair shares a mesh between its
all-electron and pseudo series. -/
def meshOk (d : Decoded) : Bool :=
  allEqMesh (d.pots.map (fun lp => meshOf lp.2))
    && (d.aeWfs.zip d.psWfs).all (fun pr => decide (meshOf pr.1.2 = meshOf pr.2.2))

/-- Modelled from the spec: the structured parse result: metadata plus the
three densities, potentials per channel, all-electron and pseudo radial
wavefunctions per (n, l), projectors per (index, l), convergence series per
l in angular-momentum order, and log-derivative series per l for both
treatments. -/
structure OncvResult where
  atsym : String
  z : String
  iexc : String
  lmax : Nat
  mode : CalcMode
  rhoV : List (ℚ × ℚ)
  rhoC : List (ℚ × ℚ)
  rhoM : List (ℚ × ℚ)
  potentials : List (Int × List (ℚ × ℚ))
  ae_wfs : List ((Nat × Nat) × List (ℚ × ℚ))
  ps_wfs : List ((Nat × Nat) × List (ℚ × ℚ))
  projectors : List ((Nat × Nat) × List (ℚ × ℚ))
  ene_vs_ecut : List (Nat × List (ℚ × ℚ))
  ae_logders : List (Nat × List (ℚ × ℚ))
  ps_logders : List (Nat × List (ℚ × ℚ))
deriving DecidableEq, Repr, Inhabited

/-- Structured-result assembly from the header and decoded tables (spec
step 5); the three density components are the value columns of the single
density table over its radius column. -/
def assemble (h : Header) (d : Decoded) : OncvResult where
  atsym := h.atsym
  z := h.z
  iexc := h.iexc
  lmax := h.lmax
  mode := h.mode
  rhoV := d.density.map (fun q => (q.1, q.2.1))
  rhoC := d.density.map (fun q => (q.1, q.2.2.1))
  rhoM := d.density.map (fun q => (q.1, q.2.2.2))
  potentials := d.pots
  ae_wfs := d.aeWfs
  ps_wfs := d.psWfs
  projectors := d.prjs
  ene_vs_ecut := d.convs
  ae_logders := d.aeLds
  ps_logders := d.psLds

/-- The `fully_relativistic` flag of a result. -/
def OncvResult.fully_relativistic (res : OncvResult) : Bool :=
  res.mode = CalcMode.fullyRelativistic

/-- The `calc_type` string of a result. -/
def OncvResult.calc_type (res : OncvResult) : String :=
  match res.mode with
  | .nonRelativistic => "non-relativistic"
  | .scalarRelativistic => "scalar-relativistic"
  | .fullyRelativistic => "fully-relativistic"

/-- Modelled from the spec: the whole parse: reject a fully-relativistic
header before any numeric extraction (step 1), locate every expected
section (step 2), decode every section's rows (step 3), cross-check the
shared meshes (step 4), then assemble the immutable result (step 5).
A fatal condition yields a single error and no result object. -/
def parse (r : Report) : Except ParseError OncvResult :=
  if r.header.mode = CalcMode.fullyRelativistic then
    .error .unsupportedCalculationMode
  else
    match firstMissing r with
    | some k => .error (.missingSection k)
    | none =>
      match decodeAll r with
      | .error e => .error e
      | .ok d =>
        if meshOk d then .ok (assemble r.header d)
        else .error .meshMismatch

/-- Modelled from the spec: the Plotter, a read-only view exposing the
parsed series for visualization, rebuildable at any time from the result
and owning no independent state. -/
structure Plotter where
  densities : List (ℚ × ℚ) × List (ℚ × ℚ) × List (ℚ × ℚ)
  potentials : List (Int × List (ℚ × ℚ))
  ae_wfs : List ((Nat × Nat) × List (ℚ × ℚ))
  ps_wfs : List ((Nat × Nat) × List (ℚ × ℚ))
  projectors : List ((Nat × Nat) × List (ℚ × ℚ))
  ene_vs_ecut : List (Nat × List (ℚ × ℚ))
  ae_logders : List (Nat × List (ℚ × ℚ))
  ps_logders : List (Nat × List (ℚ × ℚ))
deriving DecidableEq, Repr

/-- Modelled from the spec: `make_plotter()` is a pure projection of the
already-parsed state: it reads the result's series mappings and builds the
view, with no re-parse and no mutation of the result. -/
def makePlotter (res : OncvResult) : Plotter where
  densities := (res.rhoV, res.rhoC, res.rhoM)
  potentials := res.potentials
  ae_wfs := res.ae_wfs
  ps_wfs := res.ps_wfs
  projectors := res.projectors
  ene_vs_ecut := res.ene_vs_ecut
  ae_logders := res.ae_logders
  ps_logders := res.ps_logders

/-- Parse a batch of reports; each report is parsed by an independent
parser instance, with no shared state between invocations. -/
def parseAll (rs : List Report) : List (Except ParseError OncvResult) :=
  rs.map parse

/-- The result of a parse known to succeed (an arbitrary default result
stands in on a failed parse, so equalities through `resOf` also certify
success). -/
def resOf (r : Report) : OncvResult :=
  (parse r).toOption.getD default

/-- Abscissae are strictly increasing along the list. -/
def strictIncr : List ℚ → Bool
  | [] => true
  | [_] => true
  | a :: b :: rest => decide (a < b) && strictIncr (b :: rest)

/-- Values are non-increasing along the list. -/
def nonIncr : List ℚ → Bool
  | [] => true
  | [_] => true
  | a :: b :: rest => decide (b ≤ a) && nonIncr (b :: rest)

/-- One convergence series is ordered: strictly increasing cutoffs with
non-increasing convergence values. -/
def convSeriesOrdered (ps : List (ℚ × ℚ)) : Bool :=
  strictIncr (ps.map Prod.fst) && nonIncr (ps.map Prod.snd)

/-- Every convergence series of the result is ordered. -/
def convOrdered (res : OncvResult) : Bool :=
  res.ene_vs_ecut.all (fun lp => convSeriesOrdered lp.2)

/-- Rebuild the two-column rows a series was decoded from. -/
def pairRows (ps : List (ℚ × ℚ)) : List (List ℚ) :=
  ps.map (fun p => [p.1, p.2])

/-- Rebuild the four-column density rows from the three density series. -/
def densityRows : List (ℚ × ℚ) → List (ℚ × ℚ) → List (ℚ × ℚ) → List (List ℚ)
  | (r, v) :: vs, (_, c) :: cs, (_, m) :: ms => [r, v, c, m] :: densityRows vs cs ms
  | _, _, _ => []

/-- Series stored under a key in a keyed family. -/
def seriesAt (xs : List ((Nat × Nat) × List (ℚ × ℚ))) (k : Nat × Nat) :
    Option (List (ℚ × ℚ)) :=
  match xs.find? (fun x => x.1 = k) with
  | some x => some x.2
  | none => none

/-- Concrete fully-relativistic report, modelled after the test fixture
`08_O_r.out`: header in fully-relativistic mode (its sections never
matter, since the mode is rejected first). -/
def oxygenFr : Report where
  header := { atsym := "O", z := "8.00", iexc := "3", mode := .fullyRelativistic, lmax := 1 }
  sections := []

/-- Concrete non-relativistic oxygen report, modelled after the test
fixture `08_O_nr.out` and the literal values the spec quotes from it:
header O / 8.00 / 3 / non-relativistic / lmax 1, density table with first
radius 0.0100642, last radius 3.9647436, first core density 53.3293576 and
vanishing model-core density, one potential table per channel on a shared
mesh, and convergence and log-derivative blocks per l. -/
def oxygenNr : Report where
  header := { atsym := "O", z := "8.00", iexc := "3", mode := .nonRelativistic, lmax := 1 }
  sections :=
    [ (.density,
        [ [dec 100642 7, dec 40126063 7, dec 533293576 7, dec 0 1],
          [dec 20000000 7, dec 1854584 7, dec 20829 7, dec 0 1],
          [dec 39647436 7, dec 15360 7, dec 1 7, dec 0 1] ]),
      (.potential 0,
        [ [dec 100642 7, dec (-73245876) 7], [dec 20000000 7, dec (-19632674) 7], [dec 39647436 7, dec (-10088925) 7] ]),
      (.potential 1,
        [ [dec 100642 7, dec (-142729057) 7], [dec 20000000 7, dec (-19632674) 7], [dec 39647436 7, dec (-10088925) 7] ]),
      (.potential (-1),
        [ [dec 100642 7, dec (-94185855) 7], [dec 20000000 7, dec (-19632674) 7], [dec 39647436 7, dec (-10088925) 7] ]),
      (.convergence 0,
        [ [dec 48228465 7, dec 100000 7], [dec 125000000 7, dec 10000 7], [dec 248046812 7, dec 100 7] ]),
      (.convergence 1,
        [ [dec 182653436 7, dec 100000 7], [dec 263960508 7, dec 100 7] ]),
      (.aeLogder 0, [ [dec 20000000 7, dec 7113654 7], [dec (-20000000) 7, dec 39120926 7] ]),
      (.psLogder 0, [ [dec 20000000 7, dec 7085946 7], [dec (-20000000) 7, dec 39117635 7] ]),
      (.aeLogder 1, [ [dec 20000000 7, dec (-25198029) 7], [dec (-20000000) 7, dec 3392924 7] ]),
      (.psLogder 1, [ [dec 20000000 7, dec (-25177286) 7], [dec (-20000000) 7, dec 338960 6] ]) ]

/-- Concrete scalar-relativistic oxygen report, modelled after the test
fixture `08_O_sr.out` and the literal values the spec quotes from it:
header O / 8.00 / 3 / scalar-relativistic / lmax 1, potentials per channel
with first values -7.4449470 (l = 0), -14.6551019 (l = 1) and -9.5661177
(local) on the shared mesh from 0.0099448 to 3.9647436, wavefunction pairs
for (1, 0) and (2, 1) with the quoted first and last samples, projector
tables, and convergence blocks whose first channel starts at
(5.019345, 0.010000) and ends with value 0.000010. -/
def oxygenSr : Report where
  header := { atsym := "O", z := "8.00", iexc := "3", mode := .scalarRelativistic, lmax := 1 }
  sections :=
    [ (.density,
        [ [dec 99448 7, dec 40391184 7, dec 535429102 7, dec 0 1],
          [dec 20000000 7, dec 1854584 7, dec 20829 7, dec 0 1],
          [dec 39647436 7, dec 15360 7, dec 1 7, dec 0 1] ]),
      (.potential 0,
        [ [dec 99448 7, dec (-74449470) 7], [dec 20000000 7, dec (-19632674) 7], [dec 39647436 7, dec (-10088925) 7] ]),
      (.potential 1,
        [ [dec 99448 7, dec (-146551019) 7], [dec 20000000 7, dec (-19632674) 7], [dec 39647436 7, dec (-10088925) 7] ]),
      (.potential (-1),
        [ [dec 99448 7, dec (-95661177) 7], [dec 20000000 7, dec (-19632674) 7], [dec 39647436 7, dec (-10088925) 7] ]),
      (.aeWf 1 0,
        [ [dec 9945 6, dec (-92997) 6], [dec 2000000 6, dec 492182 6], [dec 3964744 6, dec 37697 6] ]),
      (.psWf 1 0,
        [ [dec 9945 6, dec 15273 6], [dec 2000000 6, dec 492180 6], [dec 3964744 6, dec 37694 6] ]),
      (.aeWf 2 1,
        [ [dec 9945 6, dec 1463 6], [dec 2000000 6, dec 441811 6], [dec 3964744 6, dec 46889 6] ]),
      (.psWf 2 1,
        [ [dec 9945 6, dec 396 6], [dec 2000000 6, dec 441809 6], [dec 3964744 6, dec 46852 6] ]),
      (.projector 1 0,
        [ [dec 9945 6, dec 15274 6], [dec 3964744 6, dec 37697 6] ]),
      (.projector 2 0,
        [ [dec 9945 6, dec (-9284) 6], [dec 3964744 6, dec 330625 6] ]),
      (.projector 1 1,
        [ [dec 9945 6, dec 395 6], [dec 3964744 6, dec 47202 6] ]),
      (.projector 2 1,
        [ [dec 9945 6, dec (-282) 6], [dec 3964744 6, dec 214155 6] ]),
      (.convergence 0,
        [ [dec 5019345 6, dec 10000 6], [dec 12500000 6, dec 1000 6], [dec 25317286 6, dec 10 6] ]),
      (.convergence 1,
        [ [dec 19469226 6, dec 10000 6], [dec 26500000 6, dec 10 6] ]),
      (.aeLogder 0, [ [dec 2000000 6, dec 706765 6], [dec (-2000000) 6, dec 3906687 6] ]),
      (.psLogder 0, [ [dec 2000000 6, dec 703758 6], [dec (-2000000) 6, dec 3906357 6] ]),
      (.aeLogder 1, [ [dec 2000000 6, dec (-2523018) 6], [dec (-2000000) 6, dec 339033 6] ]),
      (.psLogder 1, [ [dec 2000000 6, dec (-2521334) 6], [dec (-2000000) 6, dec 338721 6] ]) ]

/-- Decoded tables of a report whose decoding is known to succeed (an
arbitrary default stands in on failure). -/
def decodedOf (r : Report) : Decoded :=
  (decodeAll r).toOption.getD default

/-- Truncated fully-relativistic report: fully-relativistic header and no
section markers at all. -/
def frTrunc : Report where
  header := { atsym := "O", z := "8.00", iexc := "3", mode := .fullyRelativistic, lmax := 1 }
  sections := []

/-- Truncated non-relativistic report: valid header but no section markers
at all (input cut off before the density table). -/
def nrTrunc : Report where
  header := { atsym := "O", z := "8.00", iexc := "3", mode := .nonRelativistic, lmax := 0 }
  sections := []

/-- Report that is complete and well-formed except that its two potential
channels are tabulated on different radial meshes. -/
def badMesh : Report where
  header := { atsym := "H", z := "1.00", iexc := "3", mode := .nonRelativistic, lmax := 0 }
  sections :=
    [ (.density, [ [dec 1 2, dec 10 1, dec 0 1, dec 0 1], [dec 30 1, dec 1 1, dec 0 1, dec 0 1] ]),
      (.potential 0, [ [dec 1 2, dec (-10) 1], [dec 30 1, dec (-5) 1] ]),
      (.potential (-1), [ [dec 2 2, dec (-10) 1], [dec 30 1, dec (-5) 1] ]),
      (.convergence 0, [ [dec 50 1, dec 1 2], [dec 250 1, dec 1 4] ]),
      (.aeLogder 0, [ [dec 20 1, dec 10 1], [dec (-20) 1, dec 20 1] ]),
      (.psLogder 0, [ [dec 20 1, dec 10 1], [dec (-20) 1, dec 20 1] ]) ]

/-- Report that is complete and well-formed, but whose convergence block
lists its rows with decreasing cutoffs and increasing values. -/
def unsortedConv : Report where
  header := { atsym := "H", z := "1.00", iexc := "3", mode := .nonRelativistic, lmax := 0 }
  sections :=
    [ (.density, [ [dec 1 2, dec 10 1, dec 0 1, dec 0 1], [dec 30 1, dec 1 1, dec 0 1, dec 0 1] ]),
      (.potential 0, [ [dec 1 2, dec (-10) 1], [dec 30 1, dec (-5) 1] ]),
      (.potential (-1), [ [dec 1 2, dec (-10) 1], [dec 30 1, dec (-5) 1] ]),
      (.convergence 0, [ [dec 250 1, dec 1 4], [dec 50 1, dec 1 2] ]),
      (.aeLogder 0, [ [dec 20 1, dec 10 1], [dec (-20) 1, dec 20 1] ]),
      (.psLogder 0, [ [dec 20 1, dec 10 1], [dec (-20) 1, dec 20 1] ]) ]

end Oncv

namespace Dojo

/-- Python exceptions that `DojoTable.from_djson` and
`DojoTable.dojo_check_errors` can raise: the `NameError` for the
undefined name `app` in the md5-mismatch branch of `dojo_check_errors`,
a `KeyError` from `md5dict[p.basename]`, the `ValueError` raised by
`from_djson` on a non-empty error list, and validictory's exception from
`DojoInfo.validate_json_schema`. -/
inductive PyExc
  | nameErrorApp
  | keyError (key : String)
  | valueError (msg : String)
  | validationError
deriving DecidableEq, Repr, Inhabited

/-- The `dojo_info` metadata of a djson file; the JSON schema in
`DojoInfo.JSON_SCHEMA` constrains exactly the `pseudo_type` and `xc_type`
string enumerations (the remaining properties are unconstrained strings
and arrays, abstracted away). -/
structure DojoInfoData where
  pseudo_type : String
  xc_type : String
deriving DecidableEq, Repr, Inhabited

/-- Outcome of `DojoInfo.validate_json_schema` on the metadata:
`pseudo_type` must be "norm-conserving" or "PAW" and `xc_type` must be
"GGA-PBE". -/
def schemaOK (i : DojoInfoData) : Bool :=
  (i.pseudo_type == "norm-conserving" || i.pseudo_type == "PAW")
    && i.xc_type == "GGA-PBE"

/-- A pseudopotential as seen by `dojo_check_errors`: its symbol, basename
and md5, its z (used by `sort_by_z`), whether it has a DOJO_REPORT section,
the error list its `dojo_report.check_errors()` returns, and whether the
report has hints. -/
structure Pseudo where
  symbol : String
  basename : String
  md5 : String
  z : Nat
  hasDojoReport : Bool
  reportCheckErrors : List String
  hasHints : Bool
deriving DecidableEq, Repr, Inhabited

/-- The message appended when a pseudo has no DOJO_REPORT section
("%s does not have the DOJO_REPORT section" % repr(p), with repr(p)
abstracted to the basename). -/
def noReportMsg (p : Pseudo) : String :=
  p.basename ++ " does not have the DOJO_REPORT section"

/-- The message appended when require_hints is set and a report has no
hints. -/
def noHintsMsg (p : Pseudo) : String :=
  p.basename ++ " does not have hints"

/-- The per-pseudo loop of `dojo_check_errors`: a pseudo without a
DOJO_REPORT section contributes its message and is skipped; otherwise the
report's own check errors (and, under require_hints, a missing-hints
message) are accumulated, then `md5dict[p.basename]` is looked up (a
missing key raises KeyError) and compared with `p.md5` — on a mismatch the
code calls the undefined name `app`, raising NameError. -/
def checkLoop (md5dict : List (String × String)) (require_hints : Bool) :
    List Pseudo → Except PyExc (List String)
  | [] => .ok []
  | p :: rest =>
    if p.hasDojoReport = false then
      match checkLoop md5dict require_hints rest with
      | .error e => .error e
      | .ok es => .ok (noReportMsg p :: es)
    else
      match md5dict.lookup p.basename with
      | none => .error (.keyError p.basename)
      | some m =>
        if p.md5 ≠ m then .error .nameErrorApp
        else
          match checkLoop md5dict require_hints rest with
          | .error e => .error e
          | .ok es =>
            .ok ((p.reportCheckErrors
              ++ (if require_hints && !p.hasHints then [noHintsMsg p] else [])) ++ es)

/-- The message appended when the table holds two pseudos for one element. -/
def multiplePseudosMsg : String :=
  "Found multiple pseudos for a given element."

/-- Embedding of `DojoTable.dojo_check_errors(md5dict, require_hints)`:
first the one-pseudo-per-element check (len(set(symbols)) != len(self)),
then the per-pseudo loop; the function returns the accumulated error list
unless the loop raises. -/
def dojo_check_errors (table : List Pseudo) (md5dict : List (String × String))
    (require_hints : Bool) : Except PyExc (List String) :=
  match checkLoop md5dict require_hints table with
  | .error e => .error e
  | .ok es =>
    .ok ((if ((table.map (fun p => p.symbol)).dedup.length = table.length : Bool)
      then [] else [multiplePseudosMsg]) ++ es)

/-- Pseudo metadata for one element in the `pseudos_metadata` block of a
djson file. -/
structure PseudoMeta where
  basename : String
  md5 : String
deriving DecidableEq, Repr, Inhabited

/-- Contents of a djson file: the dojo_info block and the per-element
pseudo metadata. -/
structure DjsonContents where
  dojo_info : DojoInfoData
  pseudos_metadata : List (String × PseudoMeta)
deriving DecidableEq, Repr, Inhabited

/-- What reading the pseudopotential file at a path yields; the path is
determined by the djson directory, the element symbol and the basename, so
the environment is keyed by basename. -/
structure PseudoFile where
  symbol : String
  md5 : String
  z : Nat
  hasDojoReport : Bool
  reportCheckErrors : List String
  hasHints : Bool
deriving DecidableEq, Repr, Inhabited

/-- Load one pseudo from the file environment; its basename comes from the
path built out of the metadata entry. -/
def loadPseudo (env : String → PseudoFile) (m : PseudoMeta) : Pseudo :=
  let f := env m.basename
  { symbol := f.symbol, basename := m.basename, md5 := f.md5, z := f.z,
    hasDojoReport := f.hasDojoReport, reportCheckErrors := f.reportCheckErrors,
    hasHints := f.hasHints }

/-- The table `cls(paths).sort_by_z()` built by `from_djson`: the pseudos
loaded from the metadata paths, sorted by z. -/
def builtTable (env : String → PseudoFile) (d : DjsonContents) : List Pseudo :=
  ((d.pseudos_metadata.map (fun em => loadPseudo env em.2)).insertionSort
    (fun a b => a.z ≤ b.z))

/-- The md5dict built by `from_djson`: basename → md5 from the metadata. -/
def md5dictOf (d : DjsonContents) : List (String × String) :=
  d.pseudos_metadata.map (fun em => (em.2.basename, em.2.md5))

/-- A `DojoTable`: its pseudos and the `_dojo_info` attribute
(`none` models the attribute never having been set). -/
structure DojoTableModel where
  pseudos : List Pseudo
  dojo_info : Option DojoInfoData
deriving DecidableEq, Repr, Inhabited

/-- Embedding of `DojoTable.from_djson`: validate the dojo_info against the
JSON schema, build the table from the metadata paths, sort it by z, attach
the dojo_info, run `dojo_check_errors` with the metadata md5 dictionary,
raise ValueError on a non-empty error list, and otherwise return the
table. -/
def from_djson (env : String → PseudoFile) (d : DjsonContents) :
    Except PyExc DojoTableModel :=
  if schemaOK d.dojo_info = false then .error .validationError
  else
    match dojo_check_errors (builtTable env d) (md5dictOf d) false with
    | .error e => .error e
    | .ok errs =>
      if errs.isEmpty then
        .ok { pseudos := builtTable env d, dojo_info := some d.dojo_info }
      else
        .error (.valueError (String.intercalate "\n" errs))

/-- Helpers for stating the claim theorems about `from_djson`: the table a
successful `from_djson` returns. -/
def tableOf (env : String → PseudoFile) (d : DjsonContents) : DojoTableModel where
  pseudos := builtTable env d
  dojo_info := some d.dojo_info

/-- A pseudo whose own dojo report checks clean but whose md5 will not
match the djson entry. -/
def mismatchPseudo : Pseudo where
  symbol := "O"
  basename := "O.psp8"
  md5 := "bbbb"
  z := 8
  hasDojoReport := true
  reportCheckErrors := []
  hasHints := true

/-- An md5 dictionary disagreeing with `mismatchPseudo` on its basename. -/
def mismatchMd5dict : List (String × String) :=
  [("O.psp8", "aaaa")]

/-- A file environment holding one clean silicon pseudo. -/
def siliconEnv : String → PseudoFile :=
  fun _ =>
    { symbol := "Si", md5 := "m1", z := 14, hasDojoReport := true,
      reportCheckErrors := [], hasHints := true }

/-- A djson file whose single metadata entry agrees with `siliconEnv`. -/
def siliconDjson : DjsonContents where
  dojo_info := { pseudo_type := "norm-conserving", xc_type := "GGA-PBE" }
  pseudos_metadata := [("Si", { basename := "Si.psp8", md5 := "m1" })]

end Dojo

namespace Oncv

theorem lookup_go_isSome (key : SectionKey) :
    ∀ l : List (SectionKey × List (List ℚ)),
      (∃ rows, (key, rows) ∈ l) → (lookupSection.go key l).isSome := by
  intro l
  induction l with
  | nil => rintro ⟨rows, h⟩; cases h
  | cons s rest ih =>
    rintro ⟨rows, h⟩
    rcases List.mem_cons.mp h with h | h
    · cases h
      simp [lookupSection.go]
    · by_cases hk : s.1 = key
      · simp [lookupSection.go, hk]
      · simpa [lookupSection.go, hk] using ih ⟨rows, h⟩

theorem lookupSection_eq_getRows {r : Report} {k : SectionKey}
    (h : (lookupSection r k).isSome) : lookupSection r k = some (getRows r k) := by
  unfold getRows
  cases hl : lookupSection r k with
  | none => rw [hl] at h; cases h
  | some rows => simp

theorem allEqMesh_pairwise : ∀ {ms : List (List ℚ)}, allEqMesh ms = true →
    ∀ a ∈ ms, ∀ b ∈ ms, a = b := by
  intro ms
  cases ms with
  | nil => intro _ a ha; cases ha
  | cons m rest =>
    intro h a ha b hb
    have hall : ∀ x ∈ rest, x = m := by
      intro x hx
      have hx2 := (List.all_eq_true.mp h) x hx
      exact of_decide_eq_true hx2
    have haa : a = m := by
      rcases List.mem_cons.mp ha with h1 | h1
      · exact h1
      · exact hall a h1
    have hbb : b = m := by
      rcases List.mem_cons.mp hb with h1 | h1
      · exact h1
      · exact hall b h1
    rw [haa, hbb]

theorem row2_eq {row : List ℚ} {p : ℚ × ℚ} (h : row2 row = some p) :
    row = [p.1, p.2] := by
  match row, h with
  | [a, b], h =>
    unfold row2 at h
    cases h
    rfl

theorem decode2_rows : ∀ {rows : List (List ℚ)} {ps : List (ℚ × ℚ)},
    decode2 rows = some ps → rows = pairRows ps := by
  intro rows
  induction rows with
  | nil => intro ps h; unfold decode2 at h; cases h; rfl
  | cons row rest ih =>
    intro ps h
    unfold decode2 at h
    cases hr : row2 row with
    | none => rw [hr] at h; cases h
    | some p =>
      rw [hr] at h
      cases hd : decode2 rest with
      | none => rw [hd] at h; cases h
      | some qs =>
        rw [hd] at h
        cases h
        have := ih hd
        simp [pairRows] at this ⊢
        exact ⟨row2_eq hr, this⟩

theorem row4_eq {row : List ℚ} {q : ℚ × ℚ × ℚ × ℚ} (h : row4 row = some q) :
    row = [q.1, q.2.1, q.2.2.1, q.2.2.2] := by
  match row, h with
  | [a, b, c, d], h =>
    unfold row4 at h
    cases h
    rfl

theorem decode4_rows : ∀ {rows : List (List ℚ)} {qs : List (ℚ × ℚ × ℚ × ℚ)},
    decode4 rows = some qs →
      rows = qs.map (fun q => [q.1, q.2.1, q.2.2.1, q.2.2.2]) := by
  intro rows
  induction rows with
  | nil => intro qs h; unfold decode4 at h; cases h; rfl
  | cons row rest ih =>
    intro qs h
    unfold decode4 at h
    cases hr : row4 row with
    | none => rw [hr] at h; cases h
    | some q =>
      rw [hr] at h
      cases hd : decode4 rest with
      | none => rw [hd] at h; cases h
      | some qs2 =>
        rw [hd] at h
        cases h
        have := ih hd
        simp at this ⊢
        exact ⟨row4_eq hr, this⟩

theorem decodeSec_ok {r : Report} {k : SectionKey} {ps : List (ℚ × ℚ)}
    (h : decodeSec r k = .ok ps) : decode2 (getRows r k) = some ps := by
  unfold decodeSec at h
  cases hd : decode2 (getRows r k) with
  | none => rw [hd] at h; cases h
  | some qs => rw [hd] at h; cases h; rfl

theorem decodeKeyed_fst {α : Type} {r : Report} {mk : α → SectionKey} :
    ∀ {as : List α} {out : List (α × List (ℚ × ℚ))},
      decodeKeyed r mk as = .ok out → out.map Prod.fst = as := by
  intro as
  induction as with
  | nil => intro out h; unfold decodeKeyed at h; cases h; rfl
  | cons a rest ih =>
    intro out h
    unfold decodeKeyed at h
    cases hs : decodeSec r (mk a) with
    | error e => rw [hs] at h; cases h
    | ok ps =>
      rw [hs] at h
      cases hrest : decodeKeyed r mk rest with
      | error e => rw [hrest] at h; cases h
      | ok rs =>
        rw [hrest] at h
        cases h
        simpa using ih hrest

theorem decodeKeyed_mem {α : Type} {r : Report} {mk : α → SectionKey} :
    ∀ {as : List α} {out : List (α × List (ℚ × ℚ))},
      decodeKeyed r mk as = .ok out →
        ∀ x ∈ out, decode2 (getRows r (mk x.1)) = some x.2 := by
  intro as
  induction as with
  | nil =>
    intro out h x hx
    unfold decodeKeyed at h
    cases h
    cases hx
  | cons a rest ih =>
    intro out h x hx
    unfold decodeKeyed at h
    cases hs : decodeSec r (mk a) with
    | error e => rw [hs] at h; cases h
    | ok ps =>
      rw [hs] at h
      cases hrest : decodeKeyed r mk rest with
      | error e => rw [hrest] at h; cases h
      | ok rs =>
        rw [hrest] at h
        cases h
        rcases List.mem_cons.mp hx with hx | hx
        · cases hx
          exact decodeSec_ok hs
        · exact ih hrest x hx

theorem decodeAll_ok {r : Report} {d : Decoded} (h : decodeAll r = .ok d) :
    decode4 (getRows r .density) = some d.density
      ∧ decodeKeyed r SectionKey.potential (potentialLs r.header.lmax) = .ok d.pots
      ∧ decodeKeyed r (fun p => SectionKey.aeWf p.1 p.2) (wfKeys r) = .ok d.aeWfs
      ∧ decodeKeyed r (fun p => SectionKey.psWf p.1 p.2) (wfKeys r) = .ok d.psWfs
      ∧ decodeKeyed r (fun p => SectionKey.projector p.1 p.2) (prjKeys r) = .ok d.prjs
      ∧ decodeKeyed r SectionKey.convergence (angularLs r.header.lmax) = .ok d.convs
      ∧ decodeKeyed r SectionKey.aeLogder (angularLs r.header.lmax) = .ok d.aeLds
      ∧ decodeKeyed r SectionKey.psLogder (angularLs r.header.lmax) = .ok d.psLds := by
  unfold decodeAll at h
  cases h0 : decode4 (getRows r SectionKey.density) with
  | none => rw [h0] at h; cases h
  | some density =>
    rw [h0] at h
    cases h1 : decodeKeyed r SectionKey.potential (potentialLs r.header.lmax) with
    | error e => rw [h1] at h; cases h
    | ok pots =>
      rw [h1] at h
      cases h2 : decodeKeyed r (fun p => SectionKey.aeWf p.1 p.2) (wfKeys r) with
      | error e => rw [h2] at h; cases h
      | ok aeWfs =>
        rw [h2] at h
        cases h3 : decodeKeyed r (fun p => SectionKey.psWf p.1 p.2) (wfKeys r) with
        | error e => rw [h3] at h; cases h
        | ok psWfs =>
          rw [h3] at h
          cases h4 : decodeKeyed r (fun p => SectionKey.projector p.1 p.2) (prjKeys r) with
          | error e => rw [h4] at h; cases h
          | ok prjs =>
            rw [h4] at h
            cases h5 : decodeKeyed r SectionKey.convergence (angularLs r.header.lmax) with
            | error e => rw [h5] at h; cases h
            | ok convs =>
              rw [h5] at h
              cases h6 : decodeKeyed r SectionKey.aeLogder (angularLs r.header.lmax) with
              | error e => rw [h6] at h; cases h
              | ok aeLds =>
                rw [h6] at h
                cases h7 : decodeKeyed r SectionKey.psLogder (angularLs r.header.lmax) with
                | error e => rw [h7] at h; cases h
                | ok psLds =>
                  rw [h7] at h
                  cases h
                  refine ⟨?_, ?_, ?_, ?_, ?_, ?_, ?_, ?_⟩ <;> rfl

theorem parse_ok {r : Report} {res : OncvResult} (h : parse r = .ok res) :
    r.header.mode ≠ CalcMode.fullyRelativistic
      ∧ firstMissing r = none
      ∧ ∃ d, decodeAll r = .ok d ∧ meshOk d = true ∧ res = assemble r.header d := by
  by_cases hm : r.header.mode = CalcMode.fullyRelativistic
  · simp [parse, hm] at h
  · cases hf : firstMissing r with
    | some k => simp [parse, hm, hf] at h
    | none =>
      cases hd : decodeAll r with
      | error e => simp [parse, hm, hf, hd] at h
      | ok d =>
        cases hmesh : meshOk d with
        | false => simp [parse, hm, hf, hd, hmesh] at h
        | true =>
          have hres : res = assemble r.header d := by
            have h3 := h
            simp [parse, hm, hf, hd, hmesh] at h3
            exact h3.symm
          exact ⟨hm, rfl, d, rfl, hmesh, hres⟩

theorem firstMissing_none {r : Report} (h : firstMissing r = none) :
    ∀ k ∈ requiredKeys r, (lookupSection r k).isSome := by
  intro k hk
  have h2 := (List.find?_eq_none.mp h) k hk
  rw [Bool.not_eq_true, Option.isNone_eq_false_iff] at h2
  exact h2

theorem density_mem_required (r : Report) : SectionKey.density ∈ requiredKeys r := by
  unfold requiredKeys
  exact List.mem_cons_self _ _

theorem potential_mem_required {r : Report} {l : Int}
    (h : l ∈ potentialLs r.header.lmax) : SectionKey.potential l ∈ requiredKeys r := by
  unfold requiredKeys
  refine List.mem_cons_of_mem _ ?_
  refine List.mem_append_left _ ?_
  refine List.mem_append_left _ ?_
  refine List.mem_append_left _ ?_
  refine List.mem_append_left _ ?_
  refine List.mem_append_left _ ?_
  exact List.mem_map_of_mem _ h

theorem aeWf_mem_required {r : Report} {p : Nat × Nat}
    (h : p ∈ wfKeys r) : SectionKey.aeWf p.1 p.2 ∈ requiredKeys r := by
  unfold requiredKeys
  refine List.mem_cons_of_mem _ ?_
  refine List.mem_append_left _ ?_
  refine List.mem_append_left _ ?_
  refine List.mem_append_left _ ?_
  refine List.mem_append_left _ ?_
  refine List.mem_append_right _ ?_
  exact List.mem_map_of_mem _ h

theorem psWf_mem_required {r : Report} {p : Nat × Nat}
    (h : p ∈ wfKeys r) : SectionKey.psWf p.1 p.2 ∈ requiredKeys r := by
  unfold requiredKeys
  refine List.mem_cons_of_mem _ ?_
  refine List.mem_append_left _ ?_
  refine List.mem_append_left _ ?_
  refine List.mem_append_left _ ?_
  refine List.mem_append_right _ ?_
  exact List.mem_map_of_mem _ h

theorem convergence_mem_required {r : Report} {l : Nat}
    (h : l ∈ angularLs r.header.lmax) : SectionKey.convergence l ∈ requiredKeys r := by
  unfold requiredKeys
  refine List.mem_cons_of_mem _ ?_
  refine List.mem_append_left _ ?_
  refine List.mem_append_left _ ?_
  refine List.mem_append_right _ ?_
  exact List.mem_map_of_mem _ h

theorem aeLogder_mem_required {r : Report} {l : Nat}
    (h : l ∈ angularLs r.header.lmax) : SectionKey.aeLogder l ∈ requiredKeys r := by
  unfold requiredKeys
  refine List.mem_cons_of_mem _ ?_
  refine List.mem_append_left _ ?_
  refine List.mem_append_right _ ?_
  exact List.mem_map_of_mem _ h

theorem psLogder_mem_required {r : Report} {l : Nat}
    (h : l ∈ angularLs r.header.lmax) : SectionKey.psLogder l ∈ requiredKeys r := by
  unfold requiredKeys
  refine List.mem_cons_of_mem _ ?_
  refine List.mem_append_right _ ?_
  exact List.mem_map_of_mem _ h

theorem prjKeys_isSome {r : Report} {p : Nat × Nat} (h : p ∈ prjKeys r) :
    (lookupSection r (SectionKey.projector p.1 p.2)).isSome := by
  unfold prjKeys at h
  rw [List.mem_dedup, List.mem_filterMap] at h
  rcases h with ⟨s, hs, hmatch⟩
  have hkey : s.1 = SectionKey.projector p.1 p.2 := by
    cases hk : s.1 <;> rw [hk] at hmatch <;> simp at hmatch
    rw [← hmatch]
  refine lookup_go_isSome _ _ ⟨s.2, ?_⟩
  rw [← hkey]
  exact hs

theorem densityRows_eq (qs : List (ℚ × ℚ × ℚ × ℚ)) :
    densityRows (qs.map (fun q => (q.1, q.2.1))) (qs.map (fun q => (q.1, q.2.2.1)))
        (qs.map (fun q => (q.1, q.2.2.2)))
      = qs.map (fun q => [q.1, q.2.1, q.2.2.1, q.2.2.2]) := by
  induction qs with
  | nil => rfl
  | cons q rest ih => simpa [densityRows] using ih

end Oncv

namespace Oncv

theorem keyedLookup {α : Type} {r : Report} {mk : α → SectionKey}
    {as : List α} {out : List (α × List (ℚ × ℚ))}
    (hkd : decodeKeyed r mk as = .ok out)
    (hpres : ∀ a ∈ as, (lookupSection r (mk a)).isSome) :
    ∀ x ∈ out, lookupSection r (mk x.1) = some (pairRows x.2) := by
  intro x hx
  have hmem : x.1 ∈ as := by
    rw [← decodeKeyed_fst hkd]
    exact List.mem_map_of_mem _ hx
  rw [lookupSection_eq_getRows (hpres x.1 hmem),
    decode2_rows (decodeKeyed_mem hkd x hx)]

/-- C1: for every fully-relativistic report given to the parser, parsing
fails with UnsupportedCalculationMode before any numeric extraction begins
(the outcome is this error whatever the report's sections hold), and no
result object — not even a partial one — is returned to the caller. -/
theorem claim1_fully_relativistic_rejected (r : Report)
    (h : r.header.mode = CalcMode.fullyRelativistic) :
    parse r = .error .unsupportedCalculationMode := by
  simp [parse, h]

theorem claim1_witness :
    oxygenFr.header.mode = CalcMode.fullyRelativistic
      ∧ parse oxygenFr = .error .unsupportedCalculationMode :=
  ⟨rfl, claim1_fully_relativistic_rejected oxygenFr rfl⟩

/-- C2: for every successfully parsed scalar-relativistic report,
calc_type reports "scalar-relativistic" and all potential series have
pairwise identical radial meshes; and whenever the located and decoded
series disagree on a shared mesh, the whole parse fails with
MeshMismatch. -/
theorem claim2_scalar_rel_mesh_invariant :
    (∀ (r : Report) (res : OncvResult), parse r = .ok res →
      (r.header.mode = CalcMode.scalarRelativistic →
          res.calc_type = "scalar-relativistic")
        ∧ ∀ x ∈ res.potentials, ∀ y ∈ res.potentials, meshOf x.2 = meshOf y.2)
    ∧ (∀ (r : Report) (d : Decoded),
        r.header.mode ≠ CalcMode.fullyRelativistic → firstMissing r = none →
          decodeAll r = .ok d → meshOk d = false →
            parse r = .error .meshMismatch) := by
  constructor
  · intro r res h
    obtain ⟨hm, hf, d, hd, hmesh, hres⟩ := parse_ok h
    constructor
    · intro hsc
      rw [hres]
      simp [OncvResult.calc_type, assemble, hsc]
    · intro x hx y hy
      rw [hres] at hx hy
      have hx2 : x ∈ d.pots := hx
      have hy2 : y ∈ d.pots := hy
      have h1 : allEqMesh (d.pots.map (fun lp => meshOf lp.2)) = true :=
        ((Bool.and_eq_true _ _).mp hmesh).1
      exact allEqMesh_pairwise h1 _ (List.mem_map_of_mem _ hx2) _
        (List.mem_map_of_mem _ hy2)
  · intro r d hm hf hd hmesh
    simp [parse, hm, hf, hd, hmesh]

theorem claim2_witness :
    (resOf oxygenSr).calc_type = "scalar-relativistic"
      ∧ (∀ x ∈ (resOf oxygenSr).potentials, ∀ y ∈ (resOf oxygenSr).potentials,
          meshOf x.2 = meshOf y.2)
      ∧ parse badMesh = .error .meshMismatch :=
  ⟨(claim2_scalar_rel_mesh_invariant.1 oxygenSr (resOf oxygenSr) rfl).1 rfl,
    (claim2_scalar_rel_mesh_invariant.1 oxygenSr (resOf oxygenSr) rfl).2,
    claim2_scalar_rel_mesh_invariant.2 badMesh (decodedOf badMesh)
      (by decide) rfl rfl rfl⟩

/-- C3: the valid non-relativistic oxygen report parses successfully, with
fully_relativistic false, calc_type "non-relativistic", and metadata equal
to the header values: element "O", atomic number "8.00",
exchange-correlation id "3", maximum angular momentum 1. -/
theorem claim3_nonrelativistic_oxygen :
    parse oxygenNr = .ok (resOf oxygenNr)
      ∧ (resOf oxygenNr).fully_relativistic = false
      ∧ (resOf oxygenNr).calc_type = "non-relativistic"
      ∧ (resOf oxygenNr).atsym = "O"
      ∧ (resOf oxygenNr).z = "8.00"
      ∧ (resOf oxygenNr).iexc = "3"
      ∧ (resOf oxygenNr).lmax = 1 :=
  ⟨rfl, rfl, rfl, rfl, rfl, rfl, rfl⟩

/-- C4: for every successfully parsed report, each extracted series
recombines exactly into the literal rows of the section it was decoded
from (hence its first and last pairs equal the literal numbers printed in
that report's tables); in particular, for the oxygen reports, the valence
density's first radius is 0.0100642 and its last radius 3.9647436, and
the (1, 0) all-electron wavefunction's last sample is
(3.964744, 0.037697). -/
theorem claim4_series_recombine :
    (∀ (r : Report) (res : OncvResult), parse r = .ok res →
      lookupSection r .density
          = some (densityRows res.rhoV res.rhoC res.rhoM)
        ∧ (∀ x ∈ res.potentials,
            lookupSection r (.potential x.1) = some (pairRows x.2))
        ∧ (∀ x ∈ res.ae_wfs,
            lookupSection r (.aeWf x.1.1 x.1.2) = some (pairRows x.2))
        ∧ (∀ x ∈ res.ps_wfs,
            lookupSection r (.psWf x.1.1 x.1.2) = some (pairRows x.2))
        ∧ (∀ x ∈ res.projectors,
            lookupSection r (.projector x.1.1 x.1.2) = some (pairRows x.2))
        ∧ (∀ x ∈ res.ene_vs_ecut,
            lookupSection r (.convergence x.1) = some (pairRows x.2))
        ∧ (∀ x ∈ res.ae_logders,
            lookupSection r (.aeLogder x.1) = some (pairRows x.2))
        ∧ (∀ x ∈ res.ps_logders,
            lookupSection r (.psLogder x.1) = some (pairRows x.2)))
    ∧ (meshOf (resOf oxygenNr).rhoV).head? = some (dec 100642 7)
    ∧ (meshOf (resOf oxygenNr).rhoV).getLast? = some (dec 39647436 7)
    ∧ ((seriesAt (resOf oxygenSr).ae_wfs (1, 0)).getD []).getLast?
        = some (dec 3964744 6, dec 37697 6) := by
  refine ⟨?_, by decide, by decide, by decide⟩
  intro r res h
  obtain ⟨hm, hf, d, hd, hmesh, hres⟩ := parse_ok h
  obtain ⟨h0, h1, h2, h3, h4, h5, h6, h7⟩ := decodeAll_ok hd
  subst hres
  refine ⟨?_, ?_, ?_, ?_, ?_, ?_, ?_, ?_⟩
  · rw [lookupSection_eq_getRows (firstMissing_none hf _ (density_mem_required r)),
      decode4_rows h0]
    simp [assemble, densityRows_eq]
  · exact keyedLookup h1 (fun a ha =>
      firstMissing_none hf _ (potential_mem_required ha))
  · exact keyedLookup h2 (fun a ha =>
      firstMissing_none hf _ (aeWf_mem_required ha))
  · exact keyedLookup h3 (fun a ha =>
      firstMissing_none hf _ (psWf_mem_required ha))
  · exact keyedLookup h4 (fun a ha => prjKeys_isSome ha)
  · exact keyedLookup h5 (fun a ha =>
      firstMissing_none hf _ (convergence_mem_required ha))
  · exact keyedLookup h6 (fun a ha =>
      firstMissing_none hf _ (aeLogder_mem_required ha))
  · exact keyedLookup h7 (fun a ha =>
      firstMissing_none hf _ (psLogder_mem_required ha))

theorem claim4_witness :
    lookupSection oxygenNr .density
      = some (densityRows (resOf oxygenNr).rhoV (resOf oxygenNr).rhoC
          (resOf oxygenNr).rhoM) :=
  (claim4_series_recombine.1 oxygenNr (resOf oxygenNr) rfl).1

/-- C5 counterexample: a report whose convergence block lists its rows
with decreasing cutoffs parses successfully and yields a ConvergenceSeries
that is not ordered by strictly increasing cutoff with non-increasing
values; so not every ConvergenceSeries produced by the parser is so
ordered. -/
theorem claim5_counterexample :
    parse unsortedConv = .ok (resOf unsortedConv)
      ∧ convOrdered (resOf unsortedConv) = false :=
  ⟨rfl, by decide⟩

/-- C5 (amended): the parser preserves each convergence block's rows in
source order; on the scalar-relativistic oxygen report every convergence
series is ordered by strictly increasing cutoff with non-increasing
values, the first channel's first point is (5.019345, 0.010000) and its
last value is 0.000010. -/
theorem claim5_convergence_order :
    (∀ (r : Report) (res : OncvResult), parse r = .ok res →
      ∀ x ∈ res.ene_vs_ecut,
        lookupSection r (.convergence x.1) = some (pairRows x.2))
    ∧ convOrdered (resOf oxygenSr) = true
    ∧ (((resOf oxygenSr).ene_vs_ecut.headD (0, [])).2).head?
        = some (dec 5019345 6, dec 10000 6)
    ∧ ((((resOf oxygenSr).ene_vs_ecut.headD (0, [])).2).map Prod.snd).getLast?
        = some (dec 10 6) := by
  refine ⟨?_, by decide, by decide, by decide⟩
  intro r res h
  obtain ⟨hm, hf, d, hd, hmesh, hres⟩ := parse_ok h
  obtain ⟨h0, h1, h2, h3, h4, h5, h6, h7⟩ := decodeAll_ok hd
  subst hres
  exact keyedLookup h5 (fun a ha =>
    firstMissing_none hf _ (convergence_mem_required ha))

theorem claim5_amended_witness :
    lookupSection oxygenSr
        (.convergence ((resOf oxygenSr).ene_vs_ecut.headD (0, [])).1)
      = some (pairRows ((resOf oxygenSr).ene_vs_ecut.headD (0, [])).2) :=
  claim5_convergence_order.1 oxygenSr (resOf oxygenSr) rfl
    ((resOf oxygenSr).ene_vs_ecut.headD (0, [])) (by decide)

/-- C6 counterexample: a fully-relativistic report whose text lacks the
expected density section marker fails with UnsupportedCalculationMode,
not MissingSection; so it is not true that every report lacking an
expected section marker raises MissingSection. -/
theorem claim6_counterexample :
    (SectionKey.density ∈ requiredKeys frTrunc
        ∧ lookupSection frTrunc SectionKey.density = none)
      ∧ parse frTrunc = .error .unsupportedCalculationMode
      ∧ ∀ k, parse frTrunc ≠ .error (.missingSection k) := by
  refine ⟨⟨by decide, rfl⟩, rfl, ?_⟩
  intro k h
  have h3 : (Except.error ParseError.unsupportedCalculationMode :
      Except ParseError OncvResult) = Except.error (ParseError.missingSection k) := h
  simp at h3

/-- C6 (amended): for every report that is not in fully-relativistic mode
and whose text lacks an expected section marker, parsing fails with a
MissingSection error, so the caller never observes a partially populated
result object. -/
theorem claim6_missing_section :
    ∀ r : Report, r.header.mode ≠ CalcMode.fullyRelativistic →
      ∀ k ∈ requiredKeys r, lookupSection r k = none →
        ∃ k2, parse r = .error (.missingSection k2) := by
  intro r hm k hk hnone
  have hne : firstMissing r ≠ none := by
    intro hf
    have h2 := (List.find?_eq_none.mp hf) k hk
    rw [hnone] at h2
    simp at h2
  rcases Option.ne_none_iff_exists.mp hne with ⟨k2, hk2⟩
  refine ⟨k2, ?_⟩
  simp [parse, hm, hk2.symm]

theorem claim6_amended_witness :
    ∃ k2, parse nrTrunc = .error (.missingSection k2) :=
  claim6_missing_section nrTrunc (by decide) SectionKey.density (by decide) rfl

/-- C7: make_plotter is a pure projection of the parsed state: any two
calls return identical views, the construction has no side effect on the
result, and the view exposes exactly the already-parsed series content. -/
theorem claim7_make_plotter :
    ∀ res : OncvResult,
      makePlotter res = makePlotter res
        ∧ (makePlotter res).densities = (res.rhoV, res.rhoC, res.rhoM)
        ∧ (makePlotter res).potentials = res.potentials
        ∧ (makePlotter res).ae_wfs = res.ae_wfs
        ∧ (makePlotter res).ps_wfs = res.ps_wfs
        ∧ (makePlotter res).projectors = res.projectors
        ∧ (makePlotter res).ene_vs_ecut = res.ene_vs_ecut
        ∧ (makePlotter res).ae_logders = res.ae_logders
        ∧ (makePlotter res).ps_logders = res.ps_logders :=
  fun _ => ⟨rfl, rfl, rfl, rfl, rfl, rfl, rfl, rfl, rfl⟩

/-- C8: parsing is deterministic and free of shared mutable state: the
outcome of parsing a report is a function of that report alone, and in a
batch parsed by independent parser instances each slot's outcome is
exactly the parse of its own input, unaffected by the other reports. -/
theorem claim8_parse_pure_deterministic :
    (∀ r : Report, parse r = parse r)
      ∧ ∀ (rs : List Report) (i : Nat), (parseAll rs)[i]? = (rs[i]?).map parse := by
  refine ⟨fun _ => rfl, ?_⟩
  intro rs i
  simp [parseAll]

end Oncv

namespace Dojo

/-- C9: `DojoTable.from_djson` raises ValueError exactly when
`dojo_check_errors` on the constructed (z-sorted, metadata-built) table
returns a non-empty error list; when the list is empty, it returns a
table whose dojo_info is the schema-validated DojoInfo from the djson
file. -/
theorem claim9_from_djson_valueError :
    ∀ (env : String → PseudoFile) (d : DjsonContents),
      schemaOK d.dojo_info = true →
      ∀ errs, dojo_check_errors (builtTable env d) (md5dictOf d) false = .ok errs →
        (((∃ s, from_djson env d = .error (.valueError s)) ↔ errs ≠ [])
          ∧ (errs = [] → from_djson env d = .ok (tableOf env d))) := by
  intro env d hschema errs hcheck
  cases errs with
  | nil =>
    have hfd : from_djson env d = .ok (tableOf env d) := by
      simp [from_djson, hschema, hcheck, tableOf]
    constructor
    · constructor
      · rintro ⟨s, hs⟩
        rw [hfd] at hs
        cases hs
      · intro hne
        exact absurd rfl hne
    · intro _
      exact hfd
  | cons e rest =>
    have hfd : from_djson env d
        = .error (.valueError (String.intercalate "\n" (e :: rest))) := by
      simp [from_djson, hschema, hcheck]
    constructor
    · constructor
      · intro _
        simp
      · intro _
        exact ⟨_, hfd⟩
    · intro hempty
      cases hempty

theorem claim9_witness :
    from_djson siliconEnv siliconDjson = .ok (tableOf siliconEnv siliconDjson) :=
  (claim9_from_djson_valueError siliconEnv siliconDjson rfl [] rfl).2 rfl

/-- C10: on a table whose single pseudo has a clean dojo report but an md5
differing from the djson dictionary entry, `dojo_check_errors` does not
return an error list at all: the md5-mismatch branch calls the undefined
name `app` (the appender is bound as `eapp`), so the call raises
NameError instead of reporting the mismatch, contradicting the function's
own docstring, which promises the md5-agreement check as one of its
reported requirements. -/
theorem claim10_md5_mismatch_raises :
    dojo_check_errors [mismatchPseudo] mismatchMd5dict false
      = .error .nameErrorApp := rfl

end Dojo
